import Mathlib

/-!
Shallow embedding of the CBC Smart Study Assistant backend
(two variants: the rich `index`-style server in `src/unnamed/part_000`
and the minimal server in `src/server.js`).

JSON/JavaScript values that can appear in a request body field are
modelled by `JVal`; an absent field is `Option.none`.  JavaScript
truthiness and `typeof`/stringification are modelled explicitly so that
the validator and the prompt composer follow the source line by line.
-/

/-- A JavaScript value as it can occur in a parsed JSON request body.
`obj` stands for any (non-null) object or array value; the claims never
need to distinguish objects further. -/
inductive JVal where
  | str (s : String)
  | num (n : Int)
  | bool (b : Bool)
  | jnull
  | obj
deriving DecidableEq, Repr

/-- JavaScript truthiness of a `JVal` (`Boolean(v)`); `""`, `0`, `false`
and `null` are falsy, every object is truthy. -/
def JVal.truthy : JVal → Bool
  | .str s => !(s == "")
  | .num n => !(n == 0)
  | .bool b => b
  | .jnull => false
  | .obj => true

/-- The test `typeof v === "string"`. -/
def JVal.isStringType : JVal → Bool
  | .str _ => true
  | _ => false

/-- Template-literal stringification `${v}` of a `JVal`. -/
def JVal.interp : JVal → String
  | .str s => s
  | .num n => toString n
  | .bool b => if b then "true" else "false"
  | .jnull => "null"
  | .obj => "[object Object]"

/-- The static grade table `grades` (src/unnamed/part_000, lines 107-122):
grade code to display label, in source order. -/
def grades : List (String × String) :=
  [("pp1", "Pre-Primary 1"),
   ("pp2", "Pre-Primary 2"),
   ("grade1", "Grade 1"),
   ("grade2", "Grade 2"),
   ("grade3", "Grade 3"),
   ("grade4", "Grade 4"),
   ("grade5", "Grade 5"),
   ("grade6", "Grade 6"),
   ("grade7", "Grade 7"),
   ("grade8", "Grade 8"),
   ("grade9", "Grade 9"),
   ("grade10", "Grade 10"),
   ("grade11", "Grade 11"),
   ("grade12", "Grade 12")]

/-- The key list `Object.keys(grades)`. -/
def gradeKeys : List String := grades.map Prod.fst

/-- Property read `grades[g]` for a string key: the label when the code
is in the table, `none` (JavaScript `undefined`) otherwise. -/
def gradesLookup (g : String) : Option String :=
  (grades.find? (fun p => p.1 == g)).map Prod.snd

/-- Property read `grades[v]` for an arbitrary `JVal` key.  Only string
keys can hit the table (no table key looks like the stringification of a
number, boolean, `null` or an object). -/
def gradesLookupJ (v : JVal) : Option String :=
  match v with
  | .str s => gradesLookup s
  | _ => none

/-- Template-literal interpolation `${grades[v]}`: JavaScript renders
`undefined` as the text `"undefined"` when the lookup misses. -/
def gradeLabelInterp (v : JVal) : String :=
  match gradesLookupJ v with
  | some l => l
  | none => "undefined"

/-- The allowed `contentType` values (src/unnamed/part_000, lines 163-169). -/
def contentTypes : List String :=
  ["lesson-summary", "quiz", "activity", "assessment", "explanation"]

/-- The allowed `language` values (src/unnamed/part_000, line 178). -/
def languages : List String := ["English", "Kiswahili"]

/-- The request body of `POST /api/generate` as the validator destructures
it; each field is `none` when absent from the JSON body. -/
structure GenBody where
  topic : Option JVal
  grade : Option JVal
  subject : Option JVal
  contentType : Option JVal
  language : Option JVal
deriving DecidableEq, Repr

/-- The five field-specific validation failures of `validateGenerateRequest`. -/
inductive VError where
  | invalidTopic
  | invalidGrade
  | invalidSubject
  | invalidContentType
  | invalidLanguage
deriving DecidableEq, Repr

/-- The exact `error` message string of each validation failure
(src/unnamed/part_000, lines 140-183). -/
def VError.message : VError → String
  | .invalidTopic => "Topic is required and must be a non-empty string"
  | .invalidGrade => "Grade must be one of: " ++ String.intercalate ", " gradeKeys
  | .invalidSubject => "Subject must be a string"
  | .invalidContentType =>
      "Content type must be: lesson-summary, quiz, activity, assessment, or explanation"
  | .invalidLanguage => "Language must be: English or Kiswahili"

/-- JavaScript `String.prototype.trim`: strip whitespace from both ends.
Defined structurally over the character list so that it evaluates inside
proofs. -/
def jsTrim (s : String) : String :=
  ⟨(((s.data.dropWhile Char.isWhitespace).reverse).dropWhile
      Char.isWhitespace).reverse⟩

/-- The check `!topic || typeof topic !== "string" || topic.trim().length === 0`
(line 140); an absent field is `undefined`, which is falsy. -/
def topicCheckFails (topic : Option JVal) : Bool :=
  match topic with
  | none => true
  | some v =>
    !v.truthy || !v.isStringType ||
      (match v with
       | .str s => (jsTrim s).length == 0
       | _ => false)

/-- The check `!grade || !Object.keys(grades).includes(grade)` (line 147);
`includes` uses strict equality, so a non-string never matches a key. -/
def gradeCheckFails (grade : Option JVal) : Bool :=
  match grade with
  | none => true
  | some v =>
    !v.truthy ||
      !(match v with
        | .str s => gradeKeys.contains s
        | _ => false)

/-- The check `subject && typeof subject !== "string"` (line 154). -/
def subjectCheckFails (subject : Option JVal) : Bool :=
  match subject with
  | none => false
  | some v => v.truthy && !v.isStringType

/-- The check `!contentType || ![...].includes(contentType)` (lines 161-170). -/
def contentTypeCheckFails (contentType : Option JVal) : Bool :=
  match contentType with
  | none => true
  | some v =>
    !v.truthy ||
      !(match v with
        | .str s => contentTypes.contains s
        | _ => false)

/-- The check `!language || !["English", "Kiswahili"].includes(language)` (line 178). -/
def languageCheckFails (language : Option JVal) : Bool :=
  match language with
  | none => true
  | some v =>
    !v.truthy ||
      !(match v with
        | .str s => languages.contains s
        | _ => false)

/-- The `validateGenerateRequest` middleware (lines 137-186): the first
failing rule wins; `none` means the request passes to the handler. -/
def validateGenerateRequest (b : GenBody) : Option VError :=
  if topicCheckFails b.topic then some .invalidTopic
  else if gradeCheckFails b.grade then some .invalidGrade
  else if subjectCheckFails b.subject then some .invalidSubject
  else if contentTypeCheckFails b.contentType then some .invalidContentType
  else if languageCheckFails b.language then some .invalidLanguage
  else none

/-- The ternary `language === "Kiswahili" ? "in Kiswahili" : "in English"` (lines 190-191). -/
def languageContext (language : String) : String :=
  if language == "Kiswahili" then "in Kiswahili" else "in English"

/-- The subject part of the context clause:
`subject ? ` in ${subject}` : ""` (lines 192-194).  The subject can be
any JavaScript value that survived validation (falsy non-strings pass
the subject rule), so truthiness and interpolation are explicit. -/
def subjectClause (subject : Option JVal) : String :=
  match subject with
  | some v => if v.truthy then " in " ++ v.interp else ""
  | none => ""

/-- The shared context clause
``This is for the Kenyan CBC curriculum at ${gradeLabel}${subject ? ...}``
(lines 192-194).  `gradeLabelStr` below renders `grades[grade]` the way a
template literal does (`"undefined"` on a missing key). -/
def gradeLabelStr (grade : String) : String :=
  match gradesLookup grade with
  | some l => l
  | none => "undefined"

/-- The `cbcContext` template literal of `generateCBCPrompt` (lines 192-194). -/
def cbcContext (grade : String) (subject : Option JVal) : String :=
  "This is for the Kenyan CBC curriculum at " ++ gradeLabelStr grade
    ++ subjectClause subject

/-- The composer `generateCBCPrompt` (src/unnamed/part_000, lines 188-209): builds the
five `contentPrompts` templates and returns the one selected by
`contentType`; an unknown `contentType` reads a missing object property,
i.e. JavaScript `undefined`, modelled as `none`.  After validation,
`topic`, `grade`, `contentType` and `language` are always strings, so
those parameters are `String`; `subject` keeps its raw value. -/
def generateCBCPrompt (topic grade : String) (subject : Option JVal)
    (contentType language : String) : Option String :=
  let lc := languageContext language
  let ctx := cbcContext grade subject
  if contentType == "lesson-summary" then
    some (("Create a concise lesson summary for \"" ++ topic ++ "\" " ++ lc ++ ". ")
      ++ ctx ++
      (". Focus on key competencies students should develop. Include 2-3 main learning outcomes and key concepts. Keep it teacher-friendly."))
  else if contentType == "quiz" then
    some (("Generate 5 multiple-choice questions for \"" ++ topic ++ "\" " ++ lc ++ ". ")
      ++ ctx ++
      (". Format: Q1) Question? A) Option B) Option C) Option D) Correct Answer: X. Ensure questions test competency-based learning, not just rote memorization."))
  else if contentType == "activity" then
    some (("Design a practical, real-life activity for students to learn \"" ++ topic ++ "\" " ++ lc ++ ". ")
      ++ ctx ++
      (". Include: Objective, Materials needed, Step-by-step instructions, Expected outcomes, and Connection to real-world application. Make it engaging and hands-on."))
  else if contentType == "assessment" then
    some (("Create a competency-based assessment for \"" ++ topic ++ "\" " ++ lc ++ ". ")
      ++ ctx ++
      (". Include rubric, success criteria, and how to measure student competency development."))
  else if contentType == "explanation" then
    some (("Explain \"" ++ topic ++ "\" " ++ lc ++ " in simple, relatable terms. ")
      ++ ctx ++
      (". Use local Kenyan examples, case studies, or real-life scenarios to make content relevant and engaging to students."))
  else
    none

/-- Extract a field as the string the handler will see: the destructuring
default `d` applies exactly when the field is absent (`undefined`); a
present value is used as-is (post-validation it is always a string for
the fields this is applied to). -/
def strOf (v : Option JVal) (d : String) : String :=
  match v with
  | some (.str s) => s
  | some w => w.interp
  | none => d

/-- The `data` object of the `/api/generate` success envelope
(lines 232-244). -/
structure GenerateData where
  topic : String
  grade : String
  gradeLabel : String
  subject : JVal
  contentType : String
  language : String
  content : String
  generatedAt : String
  cbcAligned : Bool
deriving DecidableEq, Repr

/-- The `metadata` object of the `/api/generate` success envelope
(lines 245-249). -/
structure GenerateMetadata where
  model : String
  curriculum : String
  inputTokens : Nat
deriving DecidableEq, Repr

/-- The three response shapes of `POST /api/generate`:
400 validation error, 200 success, 500 generation failure. -/
inductive GenerateResponse where
  | validationError (e : VError)
  | success (data : GenerateData) (metadata : GenerateMetadata)
  | failure (details : String)
deriving DecidableEq, Repr

/-- The field `subject: subject || "General"` (line 238). -/
def subjectOrGeneral (subject : Option JVal) : JVal :=
  match subject with
  | some v => if v.truthy then v else .str "General"
  | none => .str "General"

/-- The route `POST /api/generate` (lines 211-259) together with its
`validateGenerateRequest` middleware.  The outbound call is abstracted:
`gatewayResult` is what `model.generateContent` produces (`Except.error`
for a thrown provider error), `now` is `new Date().toISOString()` and
`inputTokens` the optional `promptFeedback.inputTokenCount`.  The second
component lists the prompts actually sent to the gateway, in order;
when validation fails the middleware responds and `next()` is never
called, so the list is empty. -/
def generateHandler (b : GenBody) (gatewayResult : Except String String)
    (now : String) (inputTokens : Option Nat) :
    GenerateResponse × List String :=
  match validateGenerateRequest b with
  | some e => (.validationError e, [])
  | none =>
    let topic := strOf b.topic ""
    let grade := strOf b.grade ""
    let contentType := strOf b.contentType "lesson-summary"
    let language := strOf b.language "English"
    let prompt := (generateCBCPrompt topic grade b.subject contentType language).getD ""
    match gatewayResult with
    | .error msg => (.failure msg, [prompt])
    | .ok content =>
      (.success
        { topic := topic
          grade := grade
          gradeLabel := gradeLabelStr grade
          subject := subjectOrGeneral b.subject
          contentType := contentType
          language := language
          content := content
          generatedAt := now
          cbcAligned := true }
        { model := "gemini-pro"
          curriculum := "Kenyan CBC"
          inputTokens := inputTokens.getD 0 },
       [prompt])

/-- The list `supportedGrades: Object.keys(grades)` in the `GET /api/metadata`
response (line 391). -/
def metadataSupportedGrades : List String := gradeKeys

/-- Outcome of a handler that validates with plain truthiness checks and
then builds a prompt for the gateway: either the 400 rejection with its
exact message, or the prompt that is sent to `model.generateContent`. -/
inductive RouteStep where
  | badRequest (msg : String)
  | proceed (prompt : String)
deriving DecidableEq, Repr

/-- The guard `!x` on an optional body field (absent is `undefined`, falsy). -/
def falsyOpt (v : Option JVal) : Bool :=
  match v with
  | none => true
  | some w => !w.truthy

/-- Destructuring with a default: `const { language = "English" } = body`
replaces only `undefined` (an absent field). -/
def destructured (v : Option JVal) (d : JVal) : JVal :=
  match v with
  | none => d
  | some w => w

/-- The ternary `language === "Kiswahili" ? "in Kiswahili" : "in English"` on the raw
body value (used by the teacher-materials and learning-path handlers). -/
def languageContextJ (v : JVal) : String :=
  if v == .str "Kiswahili" then "in Kiswahili" else "in English"

/-- Validation and prompt construction of `POST /api/teacher-materials`
(src/unnamed/part_000, lines 261-280): rejects iff `!topic || !grade`,
then interpolates `grades[grade]` (possibly `undefined`) into the prompt. -/
def teacherMaterialsRoute (topic grade : Option JVal)
    (language : Option JVal) : RouteStep :=
  if falsyOpt topic || falsyOpt grade then
    .badRequest "Topic and grade are required"
  else
    .proceed
      (("Create comprehensive teacher materials for \""
          ++ (destructured topic .jnull).interp ++ "\" at ")
        ++ gradeLabelInterp (destructured grade .jnull) ++
        (" " ++ languageContextJ (destructured language (.str "English"))
          ++ ". Include: 1) Learning objectives aligned with CBC competencies, 2) Lesson outline (30-45 min), 3) Differentiation strategies, 4) Common misconceptions and how to address them, 5) Home support activities. Make it practical and classroom-ready."))

/-- Validation and prompt construction of `POST /api/clarify`
(src/unnamed/part_000, lines 302-318): rejects iff any of
`previousContent`, `question`, `grade` is falsy; the language clause here
is just `"Kiswahili"`/`"English"` without `in`. -/
def clarifyRoute (previousContent question grade : Option JVal)
    (language : Option JVal) : RouteStep :=
  if falsyOpt previousContent || falsyOpt question || falsyOpt grade then
    .badRequest "previousContent, question, and grade are required"
  else
    .proceed
      (("Based on this CBC content for ")
        ++ gradeLabelInterp (destructured grade .jnull) ++
        (": \"" ++ (destructured previousContent .jnull).interp
          ++ "\", answer this follow-up question: \""
          ++ (destructured question .jnull).interp ++ "\" in "
          ++ (if destructured language (.str "English") == .str "Kiswahili"
              then "Kiswahili" else "English")
          ++ ". Be clear, age-appropriate, and competency-focused."))

/-- Validation and prompt construction of `POST /api/learning-path`
(src/unnamed/part_000, lines 338-361): rejects iff any of `topic`,
`startGrade`, `endGrade` is falsy; both grade labels are interpolated
from the table, `undefined` when the code is unknown. -/
def learningPathRoute (topic startGrade endGrade : Option JVal)
    (language : Option JVal) : RouteStep :=
  if falsyOpt topic || falsyOpt startGrade || falsyOpt endGrade then
    .badRequest "Topic, startGrade, and endGrade are required"
  else
    .proceed
      (("Create a learning progression for \""
          ++ (destructured topic .jnull).interp ++ "\" from ")
        ++ gradeLabelInterp (destructured startGrade .jnull) ++
        (" to ")
        ++ gradeLabelInterp (destructured endGrade .jnull) ++
        (" " ++ languageContextJ (destructured language (.str "English"))
          ++ ". For each level, outline: Competency to develop, Key concepts, Assessment criteria, and Connection to next level. Align with Kenyan CBC principles."))

/-- The response shapes of the minimal variant `POST /api/gemini`
(src/server.js): 400 `{error}`, 200 `{output}`, 500 `{error}`. -/
inductive GeminiResponse where
  | badRequest (error : String)
  | ok (output : String)
  | serverError (error : String)
deriving DecidableEq, Repr

/-- The route `POST /api/gemini` (src/server.js, lines 18-58).  The guard is
`if (!topic || topic.trim() === "")`: `!topic` short-circuits, so
`topic.trim()` is evaluated only on truthy values; on a truthy
non-string, `.trim` is `undefined` and the call throws a TypeError that
the surrounding `try/catch` turns into the 500 response.  A gateway
error (`Except.error`) is caught by the same block. -/
def geminiHandler (topic : Option JVal)
    (gatewayResult : Except String String) : GeminiResponse :=
  match topic with
  | none => .badRequest "Please provide a topic."
  | some v =>
    if v.truthy then
      match v with
      | .str s =>
        if jsTrim s == "" then .badRequest "Please provide a topic."
        else
          match gatewayResult with
          | .ok text => .ok text
          | .error _ => .serverError "Failed to generate content"
      | _ => .serverError "Failed to generate content"
    else .badRequest "Please provide a topic."

/-- The string `needle` occurs as a contiguous substring of `s`. -/
def occursIn (needle s : String) : Prop :=
  ∃ a c : String, s = a ++ needle ++ c

theorem occursIn_refl (n : String) : occursIn n n :=
  ⟨"", "", by simp [String.empty_append, String.append_empty]⟩

theorem occursIn_of_inner (x z n m : String) (h : occursIn n m) :
    occursIn n (x ++ m ++ z) := by
  obtain ⟨a, c, rfl⟩ := h
  exact ⟨x ++ a, c ++ z, by simp [String.append_assoc]⟩

theorem ne_of_distinct_lead (p1 p2 r1 r2 : String)
    (h1 : ¬ List.IsPrefix p1.data p2.data)
    (h2 : ¬ List.IsPrefix p2.data p1.data) :
    p1 ++ r1 ≠ p2 ++ r2 := by
  intro h
  have hd : p1.data ++ r1.data = p2.data ++ r2.data := by
    simpa [String.data_append] using congrArg String.data h
  rcases List.append_eq_append_iff.mp hd with ⟨a, ha, _⟩ | ⟨c, hc, _⟩
  · exact h1 ⟨a, ha.symm⟩
  · exact h2 ⟨c, hc.symm⟩

/-- C1 (amended): with a valid topic, grade and subject, the validator
rejects with `InvalidContentType` whenever `contentType` is absent and
with `InvalidLanguage` whenever `language` is absent (the `!contentType`
and `!language` guards fire on `undefined`), and it accepts exactly when
both fields pass their checks; the destructuring defaults
`"lesson-summary"` / `"English"` in the `/api/generate` handler are
therefore unreachable for absent fields. -/
theorem validator_rejects_absent_contentType_language (b : GenBody)
    (htop : topicCheckFails b.topic = false)
    (hgr : gradeCheckFails b.grade = false)
    (hsub : subjectCheckFails b.subject = false) :
    (b.contentType = none →
      validateGenerateRequest b = some .invalidContentType) ∧
    (contentTypeCheckFails b.contentType = false → b.language = none →
      validateGenerateRequest b = some .invalidLanguage) ∧
    (validateGenerateRequest b = none ↔
      contentTypeCheckFails b.contentType = false ∧
        languageCheckFails b.language = false) := by
  refine ⟨?_, ?_, ?_⟩
  · intro hn
    simp [validateGenerateRequest, htop, hgr, hsub, hn, contentTypeCheckFails]
  · intro hct hl
    simp [validateGenerateRequest, htop, hgr, hsub, hct, hl,
      languageCheckFails]
  · cases hct : contentTypeCheckFails b.contentType <;>
      cases hl : languageCheckFails b.language <;>
        simp [validateGenerateRequest, htop, hgr, hsub, hct, hl]

/-- C1 counterexample: a payload with a valid topic, a valid grade and a
valid language but no `contentType` is rejected with the
`InvalidContentType` failure, not accepted with a default. -/
theorem validator_rejects_absent_contentType_example :
    validateGenerateRequest
      { topic := some (.str "Photosynthesis"), grade := some (.str "grade6"),
        subject := none, contentType := none,
        language := some (.str "English") } =
      some .invalidContentType := by decide

/-- C1 witness. -/
theorem validator_rejects_absent_contentType_language_witness :
    validateGenerateRequest
      { topic := some (.str "X"), grade := some (.str "grade1"),
        subject := none, contentType := none, language := none } =
      some .invalidContentType :=
  (validator_rejects_absent_contentType_language
    { topic := some (.str "X"), grade := some (.str "grade1"),
      subject := none, contentType := none, language := none }
    (by decide) (by decide) (by decide)).1 rfl

/-- C2: whenever `topic` is absent, not a string, or blank after
trimming, the request is answered with the `InvalidTopic` 400 failure and
no prompt is ever sent to `model.generateContent`. -/
theorem invalid_topic_rejected_no_gateway_call (b : GenBody)
    (gw : Except String String) (now : String) (tok : Option Nat)
    (h : b.topic = none ∨
         (∃ v, b.topic = some v ∧ v.isStringType = false) ∨
         (∃ s, b.topic = some (.str s) ∧ jsTrim s = "")) :
    generateHandler b gw now tok =
      (GenerateResponse.validationError VError.invalidTopic, []) := by
  have htcf : topicCheckFails b.topic = true := by
    rcases h with h | ⟨v, hv, hvs⟩ | ⟨s, hs, hst⟩
    · simp [topicCheckFails, h]
    · cases v <;> simp_all [topicCheckFails, JVal.isStringType]
    · simp [topicCheckFails, hs, hst]
  simp [generateHandler, validateGenerateRequest, htcf]

/-- C2 witness. -/
theorem invalid_topic_rejected_no_gateway_call_witness :
    generateHandler
      { topic := some (.str "   "), grade := some (.str "grade6"),
        subject := none, contentType := some (.str "quiz"),
        language := some (.str "English") }
      (Except.ok "text") "now" none =
      (GenerateResponse.validationError VError.invalidTopic, []) :=
  invalid_topic_rejected_no_gateway_call _ _ _ _
    (Or.inr (Or.inr ⟨"   ", rfl, by decide⟩))

/-- C3: with a valid topic, any request whose `grade` is absent or not a
known grade code is rejected with `InvalidGrade`, and the failure message
lists every valid code (`pp1`, `pp2`, `grade1` through `grade12`). -/
theorem invalid_grade_message_lists_all_codes (b : GenBody)
    (htop : topicCheckFails b.topic = false)
    (hgr : b.grade = none ∨
           ∃ v, b.grade = some v ∧ ∀ s, v = JVal.str s → s ∉ gradeKeys) :
    validateGenerateRequest b = some .invalidGrade ∧
    VError.message .invalidGrade =
      "Grade must be one of: pp1, pp2, grade1, grade2, grade3, grade4, grade5, grade6, grade7, grade8, grade9, grade10, grade11, grade12" ∧
    ∀ g ∈ gradeKeys, occursIn g (VError.message .invalidGrade) := by
  have hgcf : gradeCheckFails b.grade = true := by
    rcases hgr with h | ⟨v, hv, hvs⟩
    · simp [gradeCheckFails, h]
    · cases v with
      | str s =>
        simp [gradeCheckFails, hv]
        exact Or.inr (hvs s rfl)
      | num n => simp [gradeCheckFails, hv]
      | bool bb => simp [gradeCheckFails, hv]
      | jnull => simp [gradeCheckFails, hv]
      | obj => simp [gradeCheckFails, hv]
  refine ⟨by simp [validateGenerateRequest, htop, hgcf], by decide, ?_⟩
  intro g hg
  have hmem : g ∈ ["pp1", "pp2", "grade1", "grade2", "grade3", "grade4",
      "grade5", "grade6", "grade7", "grade8", "grade9", "grade10",
      "grade11", "grade12"] := hg
  simp only [List.mem_cons, List.not_mem_nil, or_false] at hmem
  rcases hmem with rfl | rfl | rfl | rfl | rfl | rfl | rfl | rfl | rfl |
    rfl | rfl | rfl | rfl | rfl
  · exact ⟨"Grade must be one of: ", ", pp2, grade1, grade2, grade3, grade4, grade5, grade6, grade7, grade8, grade9, grade10, grade11, grade12", by decide⟩
  · exact ⟨"Grade must be one of: pp1, ", ", grade1, grade2, grade3, grade4, grade5, grade6, grade7, grade8, grade9, grade10, grade11, grade12", by decide⟩
  · exact ⟨"Grade must be one of: pp1, pp2, ", ", grade2, grade3, grade4, grade5, grade6, grade7, grade8, grade9, grade10, grade11, grade12", by decide⟩
  · exact ⟨"Grade must be one of: pp1, pp2, grade1, ", ", grade3, grade4, grade5, grade6, grade7, grade8, grade9, grade10, grade11, grade12", by decide⟩
  · exact ⟨"Grade must be one of: pp1, pp2, grade1, grade2, ", ", grade4, grade5, grade6, grade7, grade8, grade9, grade10, grade11, grade12", by decide⟩
  · exact ⟨"Grade must be one of: pp1, pp2, grade1, grade2, grade3, ", ", grade5, grade6, grade7, grade8, grade9, grade10, grade11, grade12", by decide⟩
  · exact ⟨"Grade must be one of: pp1, pp2, grade1, grade2, grade3, grade4, ", ", grade6, grade7, grade8, grade9, grade10, grade11, grade12", by decide⟩
  · exact ⟨"Grade must be one of: pp1, pp2, grade1, grade2, grade3, grade4, grade5, ", ", grade7, grade8, grade9, grade10, grade11, grade12", by decide⟩
  · exact ⟨"Grade must be one of: pp1, pp2, grade1, grade2, grade3, grade4, grade5, grade6, ", ", grade8, grade9, grade10, grade11, grade12", by decide⟩
  · exact ⟨"Grade must be one of: pp1, pp2, grade1, grade2, grade3, grade4, grade5, grade6, grade7, ", ", grade9, grade10, grade11, grade12", by decide⟩
  · exact ⟨"Grade must be one of: pp1, pp2, grade1, grade2, grade3, grade4, grade5, grade6, grade7, grade8, ", ", grade10, grade11, grade12", by decide⟩
  · exact ⟨"Grade must be one of: pp1, pp2, grade1, grade2, grade3, grade4, grade5, grade6, grade7, grade8, grade9, ", ", grade11, grade12", by decide⟩
  · exact ⟨"Grade must be one of: pp1, pp2, grade1, grade2, grade3, grade4, grade5, grade6, grade7, grade8, grade9, grade10, ", ", grade12", by decide⟩
  · exact ⟨"Grade must be one of: pp1, pp2, grade1, grade2, grade3, grade4, grade5, grade6, grade7, grade8, grade9, grade10, grade11, ", "", by decide⟩

/-- C3 witness. -/
theorem invalid_grade_message_lists_all_codes_witness :
    validateGenerateRequest
      { topic := some (.str "X"), grade := some (.str "invalidgrade"),
        subject := none, contentType := some (.str "quiz"),
        language := some (.str "English") } = some .invalidGrade ∧
    occursIn "grade12" (VError.message .invalidGrade) := by
  have h := invalid_grade_message_lists_all_codes
    { topic := some (.str "X"), grade := some (.str "invalidgrade"),
      subject := none, contentType := some (.str "quiz"),
      language := some (.str "English") }
    (by decide)
    (Or.inr ⟨.str "invalidgrade", rfl, by
      intro s hs
      cases hs
      decide⟩)
  exact ⟨h.1, h.2.2 "grade12" (by decide)⟩

/-- C4 counterexample: on a grade code with no entry in the grade table
the composer does not fail — it returns a prompt with the text
`undefined` interpolated where the label should be. -/
theorem composer_no_unknown_grade_failure_example :
    generateCBCPrompt "X" "grade99" none "quiz" "English" =
      some "Generate 5 multiple-choice questions for \"X\" in English. This is for the Kenyan CBC curriculum at undefined. Format: Q1) Question? A) Option B) Option C) Option D) Correct Answer: X. Ensure questions test competency-based learning, not just rote memorization." := by
  rfl

/-- C4 (amended): for every valid `contentType`, the composer always
produces a prompt string; a grade code with no table entry is
interpolated as the text `undefined` (there is no defensive
`UnknownGradeLabel` check), while a code with an entry is resolved to
that entry's display label in the prompt. -/
theorem composer_grade_label_interpolation
    (topic lang : String) (s : Option JVal) (ct : String)
    (hct : ct ∈ contentTypes) (g : String) :
    (gradesLookup g = none →
      ∃ p, generateCBCPrompt topic g s ct lang = some p ∧
        occursIn "undefined" p) ∧
    (∀ lbl, gradesLookup g = some lbl →
      ∃ p, generateCBCPrompt topic g s ct lang = some p ∧
        occursIn lbl p) := by
  have hctx : ∀ m, gradeLabelStr g = m → occursIn m (cbcContext g s) := by
    intro m hm
    simp only [cbcContext]
    rw [hm]
    exact occursIn_of_inner _ _ _ _ (occursIn_refl m)
  have hmem : ct ∈ ["lesson-summary", "quiz", "activity", "assessment",
      "explanation"] := hct
  simp only [List.mem_cons, List.not_mem_nil, or_false] at hmem
  constructor
  · intro hnone
    have hlbl : gradeLabelStr g = "undefined" := by
      simp [gradeLabelStr, hnone]
    rcases hmem with rfl | rfl | rfl | rfl | rfl <;>
      exact ⟨_, rfl, occursIn_of_inner _ _ _ _ (hctx _ hlbl)⟩
  · intro lbl hsome
    have hlbl : gradeLabelStr g = lbl := by
      simp [gradeLabelStr, hsome]
    rcases hmem with rfl | rfl | rfl | rfl | rfl <;>
      exact ⟨_, rfl, occursIn_of_inner _ _ _ _ (hctx _ hlbl)⟩

/-- C4 witness. -/
theorem composer_grade_label_interpolation_witness :
    (∃ p, generateCBCPrompt "X" "grade99" none "quiz" "English" = some p ∧
      occursIn "undefined" p) ∧
    (∃ p, generateCBCPrompt "X" "grade6" none "quiz" "English" = some p ∧
      occursIn "Grade 6" p) :=
  ⟨(composer_grade_label_interpolation "X" "English" none "quiz"
      (by decide) "grade99").1 (by decide),
   (composer_grade_label_interpolation "X" "English" none "quiz"
      (by decide) "grade6").2 "Grade 6" (by decide)⟩

/-- C5 counterexample: a validated request whose `subject` is present as
the empty string produces a context clause identical to the one of an
absent subject — no ` in {subject}` phrase is added even though the
field is present (`subject ?` tests truthiness, and `""` is falsy). -/
theorem present_empty_subject_clause_omitted_example :
    validateGenerateRequest
      { topic := some (.str "X"), grade := some (.str "grade6"),
        subject := some (.str ""), contentType := some (.str "quiz"),
        language := some (.str "English") } = none ∧
    cbcContext "grade6" (some (.str "")) = cbcContext "grade6" none ∧
    cbcContext "grade6" none =
      "This is for the Kenyan CBC curriculum at Grade 6" :=
  ⟨by decide, rfl, rfl⟩

/-- C5 (amended): with subject omitted the context clause carries no
subject phrase, and with subject present as a non-empty (truthy) string
the clause ends in ` in {subject}` with the subject verbatim; either way
the produced prompt contains the clause.  A present empty-string subject
behaves like an omitted one. -/
theorem subject_clause_in_prompt
    (g topic lang s : String) (ct : String) (hct : ct ∈ contentTypes)
    (hs : s ≠ "") :
    cbcContext g none =
      "This is for the Kenyan CBC curriculum at " ++ gradeLabelStr g ∧
    cbcContext g (some (.str s)) =
      "This is for the Kenyan CBC curriculum at " ++ gradeLabelStr g ++
        (" in " ++ s) ∧
    (∃ p, generateCBCPrompt topic g none ct lang = some p ∧
      occursIn (cbcContext g none) p) ∧
    (∃ p, generateCBCPrompt topic g (some (.str s)) ct lang = some p ∧
      occursIn (cbcContext g (some (.str s))) p) := by
  have hmem : ct ∈ ["lesson-summary", "quiz", "activity", "assessment",
      "explanation"] := hct
  simp only [List.mem_cons, List.not_mem_nil, or_false] at hmem
  refine ⟨?_, ?_, ?_, ?_⟩
  · simp [cbcContext, subjectClause, String.append_empty]
  · simp [cbcContext, subjectClause, JVal.truthy, JVal.interp, hs]
  · rcases hmem with rfl | rfl | rfl | rfl | rfl <;>
      exact ⟨_, rfl, occursIn_of_inner _ _ _ _ (occursIn_refl _)⟩
  · rcases hmem with rfl | rfl | rfl | rfl | rfl <;>
      exact ⟨_, rfl, occursIn_of_inner _ _ _ _ (occursIn_refl _)⟩

/-- C5 witness. -/
theorem subject_clause_in_prompt_witness :
    cbcContext "grade6" (some (.str "Mathematics")) =
      "This is for the Kenyan CBC curriculum at " ++
        gradeLabelStr "grade6" ++ (" in " ++ "Mathematics") :=
  (subject_clause_in_prompt "grade6" "X" "English" "Mathematics" "quiz"
    (by decide) (by decide)).2.1

/-- C6: the documented scenario — `POST /api/generate` with topic
`Photosynthesis`, grade `grade6`, contentType `quiz`, language `English`
and a gateway returning `"Q1) ..."` answers with the success envelope
echoing the request, `gradeLabel` `"Grade 6"`, subject defaulted to
`"General"`, the gateway text as `content` and `cbcAligned` true. -/
theorem generate_photosynthesis_scenario (now : String) :
    (generateHandler
      { topic := some (.str "Photosynthesis"), grade := some (.str "grade6"),
        subject := none, contentType := some (.str "quiz"),
        language := some (.str "English") }
      (Except.ok "Q1) ...") now none).1 =
    GenerateResponse.success
      { topic := "Photosynthesis", grade := "grade6",
        gradeLabel := "Grade 6", subject := .str "General",
        contentType := "quiz", language := "English", content := "Q1) ...",
        generatedAt := now, cbcAligned := true }
      { model := "gemini-pro", curriculum := "Kenyan CBC",
        inputTokens := 0 } := rfl

/-- C7: every grade code in the `supportedGrades` list of
`GET /api/metadata` passes the validator's grade-membership check, and a
generate request carrying it is never rejected with `InvalidGrade`. -/
theorem metadata_grades_roundtrip (g : String)
    (hg : g ∈ metadataSupportedGrades) (b : GenBody)
    (hb : b.grade = some (.str g)) :
    gradeCheckFails b.grade = false ∧
    validateGenerateRequest b ≠ some .invalidGrade := by
  have hgcf : gradeCheckFails (some (.str g)) = false := by
    have hmem : g ∈ ["pp1", "pp2", "grade1", "grade2", "grade3", "grade4",
        "grade5", "grade6", "grade7", "grade8", "grade9", "grade10",
        "grade11", "grade12"] := hg
    simp only [List.mem_cons, List.not_mem_nil, or_false] at hmem
    rcases hmem with rfl | rfl | rfl | rfl | rfl | rfl | rfl | rfl | rfl |
      rfl | rfl | rfl | rfl | rfl <;> decide
  rw [hb]
  refine ⟨hgcf, ?_⟩
  intro h
  rw [validateGenerateRequest, hb] at h
  by_cases ht : topicCheckFails b.topic
  · simp [ht] at h
  · rw [if_neg ht, if_neg (by simp [hgcf])] at h
    by_cases hsc : subjectCheckFails b.subject
    · simp [hsc] at h
    · rw [if_neg hsc] at h
      by_cases hcc : contentTypeCheckFails b.contentType
      · simp [hcc] at h
      · rw [if_neg hcc] at h
        by_cases hlc : languageCheckFails b.language
        · simp [hlc] at h
        · simp [hlc] at h

/-- C7 witness. -/
theorem metadata_grades_roundtrip_witness :
    gradeCheckFails (some (.str "pp1")) = false ∧
    validateGenerateRequest
      { topic := none, grade := some (.str "pp1"), subject := none,
        contentType := none, language := none } ≠ some .invalidGrade :=
  metadata_grades_roundtrip "pp1" (by decide)
    { topic := none, grade := some (.str "pp1"), subject := none,
      contentType := none, language := none } rfl

/-- C8: the prompt composer is a pure function — equal
(topic, grade, subject, contentType, language) tuples give identical
prompt strings — and any two distinct valid content types select
distinct templates, yielding distinct prompts on otherwise equal
inputs. -/
theorem composer_deterministic_distinct_templates
    (t1 g1 l1 t2 g2 l2 : String) (s1 s2 : Option JVal) (c1 c2 c3 : String)
    (heqt : t1 = t2) (heqg : g1 = g2) (heqs : s1 = s2)
    (heqc : c1 = c2) (heql : l1 = l2)
    (h1 : c1 ∈ contentTypes) (h3 : c3 ∈ contentTypes) (hne : c1 ≠ c3) :
    generateCBCPrompt t1 g1 s1 c1 l1 = generateCBCPrompt t2 g2 s2 c2 l2 ∧
    generateCBCPrompt t1 g1 s1 c1 l1 ≠ generateCBCPrompt t1 g1 s1 c3 l1 := by
  subst heqt heqg heqs heqc heql
  refine ⟨rfl, ?_⟩
  have hm1 : c1 ∈ ["lesson-summary", "quiz", "activity", "assessment",
      "explanation"] := h1
  have hm3 : c3 ∈ ["lesson-summary", "quiz", "activity", "assessment",
      "explanation"] := h3
  simp only [List.mem_cons, List.not_mem_nil, or_false] at hm1 hm3
  rcases hm1 with rfl | rfl | rfl | rfl | rfl <;>
    rcases hm3 with rfl | rfl | rfl | rfl | rfl <;>
      first
        | exact absurd rfl hne
        | (simp only [generateCBCPrompt, String.append_assoc]
           simp only [ne_eq, Option.some.injEq]
           simp
           exact ne_of_distinct_lead _ _ _ _ (by decide) (by decide))

/-- C8 witness. -/
theorem composer_deterministic_distinct_templates_witness :
    generateCBCPrompt "Photosynthesis" "grade6" none "quiz" "English" =
      generateCBCPrompt "Photosynthesis" "grade6" none "quiz" "English" ∧
    generateCBCPrompt "Photosynthesis" "grade6" none "quiz" "English" ≠
      generateCBCPrompt "Photosynthesis" "grade6" none "activity" "English" :=
  composer_deterministic_distinct_templates
    "Photosynthesis" "grade6" "English" "Photosynthesis" "grade6" "English"
    none none "quiz" "quiz" "activity" rfl rfl rfl rfl rfl
    (by decide) (by decide) (by decide)

/-- C9: when the required fields of `/api/teacher-materials`,
`/api/clarify` or `/api/learning-path` are present and truthy but the
grade (resp. startGrade/endGrade) is not a known grade code, the request
is not rejected with the 400 validation error — the handler proceeds and
the prompt it sends to the gateway interpolates the missing label as the
text `undefined`. -/
theorem unknown_grade_routes_interpolate_undefined
    (topic grade pc q sg eg lang : JVal)
    (htopic : topic.truthy = true) (hgrade : grade.truthy = true)
    (hpc : pc.truthy = true) (hq : q.truthy = true)
    (hsg : sg.truthy = true) (heg : eg.truthy = true)
    (hgl : gradesLookupJ grade = none) :
    (∃ p, teacherMaterialsRoute (some topic) (some grade) (some lang) =
        .proceed p ∧ occursIn "undefined" p) ∧
    (∃ p, clarifyRoute (some pc) (some q) (some grade) (some lang) =
        .proceed p ∧ occursIn "undefined" p) ∧
    (gradesLookupJ sg = none ∨ gradesLookupJ eg = none →
      ∃ p, learningPathRoute (some topic) (some sg) (some eg) (some lang) =
        .proceed p ∧ occursIn "undefined" p) := by
  have hlbl : gradeLabelInterp grade = "undefined" := by
    simp [gradeLabelInterp, hgl]
  refine ⟨?_, ?_, ?_⟩
  · have h1 : teacherMaterialsRoute (some topic) (some grade) (some lang) =
        .proceed (("Create comprehensive teacher materials for \""
            ++ topic.interp ++ "\" at ")
          ++ "undefined"
          ++ (" " ++ languageContextJ lang
            ++ ". Include: 1) Learning objectives aligned with CBC competencies, 2) Lesson outline (30-45 min), 3) Differentiation strategies, 4) Common misconceptions and how to address them, 5) Home support activities. Make it practical and classroom-ready.")) := by
      simp [teacherMaterialsRoute, falsyOpt, htopic, hgrade, destructured,
        hlbl]
    exact ⟨_, h1, occursIn_of_inner _ _ _ _ (occursIn_refl _)⟩
  · have h2 : clarifyRoute (some pc) (some q) (some grade) (some lang) =
        .proceed (("Based on this CBC content for ")
          ++ "undefined"
          ++ (": \"" ++ pc.interp
            ++ "\", answer this follow-up question: \"" ++ q.interp
            ++ "\" in "
            ++ (if lang == .str "Kiswahili" then "Kiswahili" else "English")
            ++ ". Be clear, age-appropriate, and competency-focused.")) := by
      simp [clarifyRoute, falsyOpt, hpc, hq, hgrade, destructured, hlbl]
    exact ⟨_, h2, occursIn_of_inner _ _ _ _ (occursIn_refl _)⟩
  · intro hor
    have hnc : ¬((falsyOpt (some topic) || falsyOpt (some sg) ||
        falsyOpt (some eg)) = true) := by
      simp [falsyOpt, htopic, hsg, heg]
    rcases hor with hsgl | hegl
    · have hlbls : gradeLabelInterp sg = "undefined" := by
        simp [gradeLabelInterp, hsgl]
      have h3 : learningPathRoute (some topic) (some sg) (some eg)
          (some lang) =
          .proceed (("Create a learning progression for \""
              ++ topic.interp ++ "\" from ")
            ++ "undefined"
            ++ (" to "
              ++ (gradeLabelInterp eg
                ++ (" "
                  ++ (languageContextJ lang
                    ++ ". For each level, outline: Competency to develop, Key concepts, Assessment criteria, and Connection to next level. Align with Kenyan CBC principles."))))) := by
        unfold learningPathRoute
        rw [if_neg hnc]
        simp only [destructured]
        rw [hlbls]
        simp only [String.append_assoc]
      exact ⟨_, h3, occursIn_of_inner _ _ _ _ (occursIn_refl _)⟩
    · have hlble : gradeLabelInterp eg = "undefined" := by
        simp [gradeLabelInterp, hegl]
      have h4 : learningPathRoute (some topic) (some sg) (some eg)
          (some lang) =
          .proceed (("Create a learning progression for \""
              ++ (topic.interp ++ ("\" from "
                ++ (gradeLabelInterp sg ++ " to "))))
            ++ "undefined"
            ++ (" "
              ++ (languageContextJ lang
                ++ ". For each level, outline: Competency to develop, Key concepts, Assessment criteria, and Connection to next level. Align with Kenyan CBC principles."))) := by
        unfold learningPathRoute
        rw [if_neg hnc]
        simp only [destructured]
        rw [hlble]
        simp only [String.append_assoc]
      exact ⟨_, h4, occursIn_of_inner _ _ _ _ (occursIn_refl _)⟩

/-- C9 witness. -/
theorem unknown_grade_routes_interpolate_undefined_witness :
    (∃ p, teacherMaterialsRoute (some (.str "Fractions"))
        (some (.str "grade99")) (some (.str "English")) =
        .proceed p ∧ occursIn "undefined" p) ∧
    (∃ p, clarifyRoute (some (.str "prior")) (some (.str "why?"))
        (some (.str "grade99")) (some (.str "English")) =
        .proceed p ∧ occursIn "undefined" p) ∧
    (∃ p, learningPathRoute (some (.str "Fractions"))
        (some (.str "grade99")) (some (.str "grade6"))
        (some (.str "English")) = .proceed p ∧ occursIn "undefined" p) := by
  have h := unknown_grade_routes_interpolate_undefined
    (.str "Fractions") (.str "grade99") (.str "prior") (.str "why?")
    (.str "grade99") (.str "grade6") (.str "English")
    (by decide) (by decide) (by decide) (by decide) (by decide) (by decide)
    (by decide)
  exact ⟨h.1, h.2.1, h.2.2 (Or.inl (by decide))⟩

/-- C10: on `POST /api/gemini`, a truthy non-string topic makes
`topic.trim()` throw, so the catch block answers 500
`{error: "Failed to generate content"}` rather than 400; the 400
`{error: "Please provide a topic."}` is produced exactly when the topic
is absent, falsy, or a string that is empty after trimming. -/
theorem gemini_topic_guard_characterization (topic : Option JVal)
    (gw : Except String String) :
    ((∃ v, topic = some v ∧ v.truthy = true ∧ v.isStringType = false) →
      geminiHandler topic gw = .serverError "Failed to generate content") ∧
    (geminiHandler topic gw = .badRequest "Please provide a topic." ↔
      (topic = none ∨ (∃ v, topic = some v ∧ v.truthy = false) ∨
        (∃ s, topic = some (.str s) ∧ jsTrim s = ""))) := by
  constructor
  · rintro ⟨v, rfl, hvt, hvs⟩
    cases v <;> simp_all [geminiHandler, JVal.truthy, JVal.isStringType]
  · constructor
    · intro hbad
      rcases topic with _ | v
      · exact Or.inl rfl
      · cases v with
        | str s =>
          by_cases hse : s = ""
          · subst hse
            exact Or.inr (Or.inl ⟨_, rfl, by decide⟩)
          · by_cases hst : jsTrim s = ""
            · exact Or.inr (Or.inr ⟨s, rfl, hst⟩)
            · exfalso
              rcases gw with e | t <;>
                simp [geminiHandler, JVal.truthy, hse, hst] at hbad
        | num n =>
          by_cases hn : n = 0
          · subst hn
            exact Or.inr (Or.inl ⟨_, rfl, by decide⟩)
          · exfalso
            simp [geminiHandler, JVal.truthy, hn] at hbad
        | bool bb =>
          cases bb
          · exact Or.inr (Or.inl ⟨_, rfl, by decide⟩)
          · exfalso
            simp [geminiHandler, JVal.truthy] at hbad
        | jnull => exact Or.inr (Or.inl ⟨_, rfl, by decide⟩)
        | obj =>
          exfalso
          simp [geminiHandler, JVal.truthy] at hbad
    · rintro (rfl | ⟨v, rfl, hvt⟩ | ⟨s, rfl, hst⟩)
      · simp [geminiHandler]
      · cases v <;> simp_all [geminiHandler, JVal.truthy]
      · by_cases hse : s = ""
        · subst hse
          simp [geminiHandler, JVal.truthy]
        · simp [geminiHandler, JVal.truthy, hse, hst]

/-- C10 witness. -/
theorem gemini_topic_guard_characterization_witness :
    geminiHandler (some (.num 5)) (Except.ok "text") =
      .serverError "Failed to generate content" ∧
    geminiHandler (some (.str " ")) (Except.ok "text") =
      .badRequest "Please provide a topic." :=
  ⟨(gemini_topic_guard_characterization (some (.num 5))
      (Except.ok "text")).1 ⟨.num 5, rfl, by decide, by decide⟩,
   (gemini_topic_guard_characterization (some (.str " "))
      (Except.ok "text")).2.mpr
     (Or.inr (Or.inr ⟨" ", rfl, by decide⟩))⟩
